import Mathlib

/-!
Shallow embedding of the vivi-calc pricing calculator.

Money and percentages are modelled as exact rationals (ℚ); JavaScript
numeric truthiness (`x || d` on numbers) is modelled by `jsOr`, which
returns the default when the value is 0 (the falsy numeric case).

Sources embedded here:
* the client-side pricing engine (`calculatePackagePricing` in the
  frontend calculation module);
* the server-side pricing copy (`calculatePackagePricing` in
  server/storage.ts, lines 1791-1896);
* the subscription-type duplicate search (`findSubscriptionType`,
  server/storage.ts lines 172-221) and the confirmation route
  (`app.post("/api/subscription")`, lines 1293-1422);
* the payment-schedule generator (`generatePaymentSchedule`, lines
  1973-2006);
* the package-selection down-payment adjustment of the interactive
  hook (use-calculator.ts, lines 305-334).
-/

/-- JS `x || d` for numbers: 0 (falsy) falls back to the default. -/
def jsOr (v d : ℚ) : ℚ := if v = 0 then d else v

/-- JS `x || d` for natural-valued numbers (ids, counts). -/
def jsOrN (v d : ℕ) : ℕ := if v = 0 then d else v

/-- Discount tags appearing in `appliedDiscounts` entries. -/
inductive DiscountType where
  | package
  | bulk
  | certificate
  | correction
  | gift_sessions
deriving DecidableEq, Repr

/-- One `{ type, amount }` entry of an `appliedDiscounts` list. -/
structure AppliedDiscount where
  dtype : DiscountType
  amount : ℚ
deriving DecidableEq, Repr

/-- Total amount carried by entries of one discount type in an
`appliedDiscounts` list. -/
def discountAmountOf (l : List AppliedDiscount) (t : DiscountType) : ℚ :=
  (l.filter (fun e => e.dtype = t)).foldr (fun e acc => e.amount + acc) 0

/-- Sum of `appliedDiscounts` amounts excluding `gift_sessions` entries. -/
def sumNonGift (l : List AppliedDiscount) : ℚ :=
  (l.filter (fun e => e.dtype ≠ DiscountType.gift_sessions)).foldr
    (fun e acc => e.amount + acc) 0

/-- Per-package configuration handed to the client engine
(`packageConfig[type]` built by use-calculator from the packages table).
`dynamicDiscount = 0` models the absent/falsy case of
`packageData.dynamicDiscount`. -/
structure PackageConfig where
  discount : ℚ
  dynamicDiscount : ℚ
  minCost : ℚ
  minDownPaymentPercent : ℚ
  minDownPayment : ℚ
  requiresFullPayment : Bool
  giftSessions : ℚ
deriving DecidableEq, Repr

/-- Calculator settings as consumed through
`calculatorSettings?.field || default`; a field value 0 stands for the
absent/falsy case and triggers the hard-coded default. -/
structure CalculatorSettings where
  certificateDiscountAmount : ℚ
  certificateMinCourseAmount : ℚ
  bulkDiscountThreshold : ℚ
  bulkDiscountPercentage : ℚ
deriving DecidableEq, Repr

/-- The params bundle of the client engine (the fields the per-package
computation actually reads). -/
structure CalcInputs where
  downPayment : ℚ
  installmentMonths : ℚ
  usedCertificate : Bool
  procedureCount : ℚ
  freeZonesValue : ℚ
  totalProcedures : ℚ
  correctionPercent : ℚ
deriving DecidableEq, Repr

/-- Per-package output record of the client engine.  The unavailable
reason string "Не хватает {shortage} ₽ (минимум: {minCost} ₽)" is
modelled by the pair (shortage, minCost) it interpolates; `none` models
the empty string used when the package is available. -/
structure PackageData where
  isAvailable : Bool
  unavailableReason : Option (ℚ × ℚ)
  finalCost : ℚ
  totalSavings : ℚ
  monthlyPayment : ℚ
  appliedDiscounts : List AppliedDiscount
deriving DecidableEq, Repr

/-- Line 88 of the client engine:
`Math.min(correctionPercent, 10) * baseCost * 0.01`. -/
def correctionDiscountOf (correctionPercent baseCost : ℚ) : ℚ :=
  min correctionPercent 10 * baseCost * (1 / 100)

/-- The body of the client engine loop for one package type
(frontend `calculatePackagePricing`, lines 60-143). -/
def calcPackage (baseCost : ℚ) (p : CalcInputs) (s : CalculatorSettings)
    (pd : PackageConfig) : PackageData :=
  let discount := if pd.dynamicDiscount ≠ 0
    then max pd.discount pd.dynamicDiscount else pd.discount
  let certificateDiscountAmount := jsOr s.certificateDiscountAmount 3000
  let certificateMinAmount := jsOr s.certificateMinCourseAmount 25000
  let certificateDiscount :=
    if p.usedCertificate ∧ certificateMinAmount ≤ baseCost
    then certificateDiscountAmount else 0
  let bulkThreshold := jsOr s.bulkDiscountThreshold 15
  let bulkDiscountPercent := jsOr s.bulkDiscountPercentage (1 / 40)
  let maxSessionCount := jsOr p.procedureCount 1
  let qualifiesForBulkDiscount := bulkThreshold ≤ maxSessionCount
  let additionalDiscount :=
    if qualifiesForBulkDiscount then baseCost * bulkDiscountPercent else 0
  let correctionDiscount := correctionDiscountOf p.correctionPercent baseCost
  let packageDiscount := baseCost * discount
  let originalCostPerProcedure :=
    if 0 < maxSessionCount then baseCost / maxSessionCount else 0
  let giftSessionValue := originalCostPerProcedure * pd.giftSessions
  let actualDiscounts :=
    packageDiscount + certificateDiscount + additionalDiscount + correctionDiscount
  let totalSavings := actualDiscounts
  let finalCost := baseCost - actualDiscounts
  let remainingAmount := finalCost - p.downPayment
  let monthlyPayment :=
    if 0 < p.installmentMonths ∧ ¬pd.requiresFullPayment
    then remainingAmount / p.installmentMonths else 0
  let isAvailable : Bool := decide (pd.minCost ≤ baseCost)
  { isAvailable := isAvailable
    unavailableReason :=
      if isAvailable then none else some (pd.minCost - baseCost, pd.minCost)
    finalCost := finalCost
    totalSavings := totalSavings
    monthlyPayment := if isAvailable then monthlyPayment else 0
    appliedDiscounts :=
      [⟨DiscountType.package, packageDiscount⟩]
        ++ (if qualifiesForBulkDiscount ∧ 0 < additionalDiscount
            then [⟨DiscountType.bulk, additionalDiscount⟩] else [])
        ++ (if 0 < certificateDiscount
            then [⟨DiscountType.certificate, certificateDiscount⟩] else [])
        ++ (if 0 < correctionDiscount
            then [⟨DiscountType.correction, correctionDiscount⟩] else [])
        ++ (if 0 < giftSessionValue
            then [⟨DiscountType.gift_sessions, giftSessionValue⟩] else []) }

/-- Whole-result record of the client engine. -/
structure CalculationResult where
  baseCost : ℚ
  packages : List (String × PackageData)
  totalProcedures : ℚ
  freeZonesValue : ℚ
deriving DecidableEq, Repr

/-- Client engine, iterating the per-package body over the package
configuration entries (frontend `calculatePackagePricing`). -/
def calculatePackagePricing (baseCost : ℚ)
    (packageConfig : List (String × PackageConfig))
    (p : CalcInputs) (s : CalculatorSettings) : CalculationResult :=
  { baseCost := baseCost
    packages := packageConfig.map (fun e => (e.1, calcPackage baseCost p s e.2))
    totalProcedures := jsOr p.totalProcedures 0
    freeZonesValue := jsOr p.freeZonesValue 0 }

/-! ## Server-side pricing copy (server/storage.ts lines 1791-1896) -/

/-- One row of the packages table as read by the server pricing copy
(`packageMap[pkg.type]`). -/
structure ServerPackageRow where
  ptype : String
  discount : ℚ
  minCost : ℚ
  minDownPaymentPercent : ℚ
  requiresFullPayment : Bool
deriving DecidableEq, Repr

/-- The calculation object consumed by the server pricing copy: service
quantities, payment fields and free zones (pricePerProcedure, quantity). -/
structure ServerCalc where
  serviceQuantities : List ℚ
  downPayment : ℚ
  installmentMonths : ℚ
  usedCertificate : Bool
  freeZones : List (ℚ × ℚ)
deriving DecidableEq, Repr

/-- Unavailable reason of the server copy: either "Пакет не найден" or
the minimum-cost message interpolating the package minCost. -/
inductive ServerReason where
  | notFound
  | belowMin (minCost : ℚ)
deriving DecidableEq, Repr

/-- Per-package output record of the server pricing copy. -/
structure ServerPackageData where
  isAvailable : Bool
  unavailableReason : Option ServerReason
  finalCost : ℚ
  totalSavings : ℚ
  monthlyPayment : ℚ
  appliedDiscounts : List AppliedDiscount
deriving DecidableEq, Repr

/-- Value of `freeZones.reduce((sum, zone) => sum + zone.pricePerProcedure * zone.quantity, 0)`. -/
def freeZonesValueOf (zones : List (ℚ × ℚ)) : ℚ :=
  zones.foldl (fun sum z => sum + z.1 * z.2) 0

/-- The body of the server pricing loop for one package type
(server/storage.ts `calculatePackagePricing`, lines 1832-1888).
`rows` is the packages table; the per-type discount is
`packageMap[pkg]?.discount || 0`. -/
def serverCalcPackage (baseCost : ℚ) (c : ServerCalc)
    (rows : List ServerPackageRow) (pkg : String) : ServerPackageData :=
  let totalProcedures := c.serviceQuantities.foldl (· + ·) 0
  let additionalDiscount : ℚ := if (15 : ℚ) ≤ totalProcedures then 1 / 40 else 0
  let certificateDiscount : ℚ :=
    if c.usedCertificate ∧ (25000 : ℚ) ≤ baseCost then 3000 else 0
  let pkgConfig := rows.find? (fun r => r.ptype = pkg)
  let discount := (pkgConfig.map (fun r => r.discount)).getD 0
  let finalDiscount₀ := discount + additionalDiscount
  let finalDiscount :=
    if pkg = "economy" ∧ 10000 < c.downPayment
    then max finalDiscount₀ (3 / 10) else finalDiscount₀
  let discountAmount := baseCost * finalDiscount
  let finalCost := baseCost - discountAmount - certificateDiscount
  let freeZonesValue := freeZonesValueOf c.freeZones
  let totalSavings := discountAmount + certificateDiscount + freeZonesValue
  let availability : Bool × Option ServerReason :=
    match pkgConfig with
    | none => (false, some ServerReason.notFound)
    | some r =>
      if baseCost < r.minCost then (false, some (ServerReason.belowMin r.minCost))
      else (true, none)
  let isAvailable := availability.1
  let monthlyPayment :=
    if isAvailable ∧ 0 < c.installmentMonths ∧ pkg ≠ "vip"
    then (finalCost - c.downPayment) / c.installmentMonths else 0
  { isAvailable := isAvailable
    unavailableReason := availability.2
    finalCost := finalCost
    totalSavings := totalSavings
    monthlyPayment := monthlyPayment
    appliedDiscounts :=
      [⟨DiscountType.package, discountAmount⟩]
        ++ (if 0 < additionalDiscount
            then [⟨DiscountType.bulk, baseCost * (1 / 40)⟩] else [])
        ++ (if 0 < certificateDiscount
            then [⟨DiscountType.certificate, certificateDiscount⟩] else []) }

/-! ## Subscription-type duplicate search and confirmation route
(server/storage.ts lines 172-221 and 1293-1422) -/

/-- A service entry of the confirmation request
(`calculation.services[i]`).  A zero `serviceId` / `sessionCount` /
`count` models the absent (falsy) field. -/
structure ReqService where
  serviceId : ℕ
  id : ℕ
  sessionCount : ℕ
  count : ℕ
deriving DecidableEq, Repr

/-- Id part `${s.serviceId || s.id}` of the search key (line 175). -/
def findKeyId (s : ReqService) : ℕ := jsOrN s.serviceId s.id

/-- Count part `${s.sessionCount || s.count || 10}` of the search key (line 175). -/
def findKeyCount (s : ReqService) : ℕ := jsOrN s.sessionCount (jsOrN s.count 10)

/-- The service key built by `findSubscriptionType`: the code renders
each entry as the string `"id:count"`, sorts and joins with `"|"`.
Joined-sorted-string equality coincides with equality of the multiset of
(id, count) pairs (the rendering is injective and the separator
unambiguous), so the key is modelled as that multiset. -/
def serviceKeyOf (ss : List ReqService) : Multiset (ℕ × ℕ) :=
  (ss.map (fun s => (findKeyId s, findKeyCount s)) : List (ℕ × ℕ))

/-- A stored external subscription-type record: exact cost plus its
balance-container links (service id via `link.service?.id || link.service_id`,
and count).  `links = none` models a missing/invalid balance container. -/
structure SubRecord where
  cost : ℚ
  links : Option (List (ℕ × ℕ))
deriving DecidableEq, Repr

/-- Whether one stored record matches the search: exact cost equality
first, then exact service-key equality on the balance container
(lines 185-212). -/
def subRecordMatches (st : SubRecord) (key : Multiset (ℕ × ℕ)) (cost : ℚ) : Bool :=
  decide (st.cost = cost) &&
    match st.links with
    | none => false
    | some ls => decide ((ls : Multiset (ℕ × ℕ)) = key)

/-- Search `findSubscriptionType(services, cost, packageType)`: first stored
record matching on both cost and service composition. -/
def findSubscriptionType (store : List SubRecord) (ss : List ReqService)
    (cost : ℚ) : Option SubRecord :=
  store.find? (fun st => subRecordMatches st (serviceKeyOf ss) cost)

/-- The record the confirmation route asks the external platform to
create when the search fails: composition from
`{ serviceId: service.id || service.serviceId, count: service.sessionCount || service.count || 10 }`
(route lines 1349-1352) at the computed cost.  Modelled from the spec:
the external create/echo round trip (`createSubscriptionType` +
`upsertSubscriptionType`) stores a record whose balance container holds
exactly the requested composition and whose cost is the requested cost. -/
def mkSubRecord (ss : List ReqService) (cost : ℚ) : SubRecord :=
  { cost := cost
    links := some (ss.map (fun s => (jsOrN s.id s.serviceId, findKeyCount s))) }

/-- Find-or-create step of the confirmation route (lines 1329-1379):
returns the resolved record, the resulting store, and whether a new
external record was created. -/
def resolveSubscriptionType (store : List SubRecord) (ss : List ReqService)
    (cost : ℚ) : SubRecord × List SubRecord × Bool :=
  match findSubscriptionType store ss cost with
  | some r => (r, store, false)
  | none => (mkSubRecord ss cost, store ++ [mkSubRecord ss cost], true)

/-! ## Confirmation route control flow and the persisted Sale row -/

/-- The pricing fields of the request body `calculation` object that the
route persists.  `installmentMonths`/`monthlyPayment` are optional in
the payload (`none` models an absent field). -/
structure CalcPayload where
  baseCost : ℚ
  finalCost : ℚ
  totalSavings : ℚ
  downPayment : ℚ
  installmentMonths : Option ℚ
  monthlyPayment : Option ℚ
  appliedDiscounts : List AppliedDiscount
deriving DecidableEq, Repr

/-- The pricing columns of the Sale row the route persists. -/
structure SaleRow where
  baseCost : ℚ
  finalCost : ℚ
  totalSavings : ℚ
  downPayment : ℚ
  installmentMonths : Option ℚ
  monthlyPayment : Option ℚ
  appliedDiscounts : List AppliedDiscount
deriving DecidableEq, Repr

/-- Null-coercion `calculation.installmentMonths || null` (route line 1405): an
absent or falsy (0) value is stored as null. -/
def jsOrNull (v : Option ℚ) : Option ℚ :=
  match v with
  | none => none
  | some q => if q = 0 then none else some q

/-- The Sale row built by `storage.createSale` from the request payload
(route lines 1395-1411): every pricing column is copied from the
client-supplied calculation object (numbers via `.toString()`, modelled
as the identity on exact rationals); `installmentMonths` goes through
`|| null`, `monthlyPayment` through `?.toString() || null` (absent
becomes null; a present number, including 0 whose string "0" is truthy,
is kept). -/
def buildSaleRow (c : CalcPayload) : SaleRow :=
  { baseCost := c.baseCost
    finalCost := c.finalCost
    totalSavings := c.totalSavings
    downPayment := c.downPayment
    installmentMonths := jsOrNull c.installmentMonths
    monthlyPayment := c.monthlyPayment
    appliedDiscounts := c.appliedDiscounts }

/-- Outcome of one external/storage step as seen by the route handler:
either a value or a thrown error. -/
inductive StepResult (α : Type) where
  | ok (a : α)
  | thrown
deriving DecidableEq, Repr

/-- Environment of one confirmation request: the outcome of the
subscription-type search and of the external creation round trip. -/
structure ConfirmEnv where
  findOutcome : StepResult (Option SubRecord)
  createOutcome : StepResult SubRecord
deriving DecidableEq, Repr

/-- Response of the confirmation route: the success JSON or the
catch-all 500 error (`"Ошибка создания абонемента"`). -/
inductive ConfirmResponse where
  | success (resolved : SubRecord)
  | serverError
deriving DecidableEq, Repr

/-- Control flow of `app.post("/api/subscription")` (lines 1293-1422)
after client resolution: search for an existing subscription type; if
the search throws, the whole handler jumps to the catch block and no
Sale is written.  If it finds none, the external creation runs; if that
throws, again no Sale is written.  Only with a resolved subscription
type does `storage.createSale` run, persisting the client-supplied
pricing fields.  Returns the response and the persisted Sale row, if
any. -/
def confirmSubscription (env : ConfirmEnv) (c : CalcPayload) :
    ConfirmResponse × Option SaleRow :=
  match env.findOutcome with
  | StepResult.thrown => (ConfirmResponse.serverError, none)
  | StepResult.ok found =>
    match found with
    | some st => (ConfirmResponse.success st, some (buildSaleRow c))
    | none =>
      match env.createOutcome with
      | StepResult.thrown => (ConfirmResponse.serverError, none)
      | StepResult.ok st => (ConfirmResponse.success st, some (buildSaleRow c))

/-! ## Payment schedule (server/storage.ts lines 1973-2006) -/

/-- Description of one schedule entry: the down payment
("Первоначальный взнос") or installment i of n ("Платеж {i} из {n}"). -/
inductive PaymentDescription where
  | downPayment
  | installment (i n : ℕ)
deriving DecidableEq, Repr

/-- One entry of the generated payment schedule.  Dates are modelled by
their month offset from "today" (`setMonth(getMonth() + i)`). -/
structure PaymentEntry where
  monthOffset : ℕ
  amount : ℚ
  description : PaymentDescription
deriving DecidableEq, Repr

/-- Schedule `generatePaymentSchedule(downPayment, finalCost, installmentMonths)`:
the down payment dated today, then, when `installmentMonths > 1`, one
entry per month i = 1..N for `(finalCost - downPayment) / N`. -/
def generatePaymentSchedule (downPayment finalCost : ℚ)
    (installmentMonths : ℕ) : List PaymentEntry :=
  ⟨0, downPayment, PaymentDescription.downPayment⟩ ::
    (if 1 < installmentMonths then
      (List.range installmentMonths).map (fun i =>
        ⟨i + 1, (finalCost - downPayment) / (installmentMonths : ℚ),
          PaymentDescription.installment (i + 1) installmentMonths⟩)
    else [])

/-! ## Package-selection down-payment adjustment
(use-calculator.ts, setSelectedPackage callback, lines 305-334) -/

/-- One row of the client-fetched packages list (the fields the
selection callback reads). -/
structure ClientPackageRow where
  ptype : String
  requiresFullPayment : Bool
  minDownPaymentPercent : ℚ
deriving DecidableEq, Repr

/-- The down payment resulting from selecting a package: pinned to the
package finalCost when the package requires full payment, otherwise
`Math.round(max(finalCost * minDownPaymentPercent, settings.minimumDownPayment || 5000))`;
left unchanged when the selection is cleared, data is missing, or the
package is unavailable. -/
def adjustDownPaymentOnSelect (packageType : Option String)
    (calcResult : Option CalculationResult) (rows : List ClientPackageRow)
    (minimumDownPayment : ℚ) (downPayment : ℚ) : ℚ :=
  match packageType, calcResult with
  | some t, some c =>
    if rows ≠ [] then
      match c.packages.find? (fun e => e.1 = t),
            rows.find? (fun r => r.ptype = t) with
      | some pe, some cfg =>
        if pe.2.isAvailable then
          if cfg.requiresFullPayment then pe.2.finalCost
          else
            ((round (max (pe.2.finalCost * cfg.minDownPaymentPercent)
              (jsOr minimumDownPayment 5000)) : ℤ) : ℚ)
        else downPayment
      | _, _ => downPayment
    else downPayment
  | _, _ => downPayment

/-! ## Claim theorems -/

/-- C4, counterexample: the engine applies `Math.min(correctionPercent, 10)`
with no lower clamp, so a requested correctionPercent of -5 on a base
cost of 1000 yields a correction discount of -50 — a discount below 0,
visible as a negative totalSavings when no other discount applies.
This refutes the claimed clamp to the interval [0, 10]. -/
theorem correction_no_lower_clamp_counterexample :
    correctionDiscountOf (-5) 1000 = -50 ∧
    (calcPackage 1000
      { downPayment := 0, installmentMonths := 0, usedCertificate := false,
        procedureCount := 10, freeZonesValue := 0, totalProcedures := 10,
        correctionPercent := -5 }
      { certificateDiscountAmount := 0, certificateMinCourseAmount := 0,
        bulkDiscountThreshold := 0, bulkDiscountPercentage := 0 }
      { discount := 0, dynamicDiscount := 0, minCost := 0,
        minDownPaymentPercent := 0, minDownPayment := 0,
        requiresFullPayment := false, giftSessions := 0 }).totalSavings = -50 := by
  constructor
  · norm_num [correctionDiscountOf]
  · norm_num [calcPackage, jsOr, correctionDiscountOf]

/-- C4, amended: the correction discount equals
`min(correctionPercent, 10) × baseCost / 100` — clamped above at 10
percent only.  For a nonnegative requested percent (the range the UI
feeds the engine) the discount lies in [0, baseCost × 10 / 100], a
request of 15 yields exactly 10 percent of baseCost, and the engine adds
exactly this amount to totalSavings relative to a zero correction. -/
theorem correction_clamp_amended (b cp : ℚ) (hb : 0 ≤ b) :
    correctionDiscountOf cp b = min cp 10 * b / 100 ∧
    (0 ≤ cp → 0 ≤ correctionDiscountOf cp b ∧
      correctionDiscountOf cp b ≤ 10 * b / 100) ∧
    correctionDiscountOf 15 b = 10 * b / 100 ∧
    (∀ (p : CalcInputs) (s : CalculatorSettings) (pd : PackageConfig),
      (calcPackage b { p with correctionPercent := cp } s pd).totalSavings =
        (calcPackage b { p with correctionPercent := 0 } s pd).totalSavings +
          correctionDiscountOf cp b) := by
  refine ⟨by rw [correctionDiscountOf]; ring, fun hcp => ⟨?_, ?_⟩, ?_, ?_⟩
  · have h0 : 0 ≤ min cp 10 := le_min hcp (by norm_num)
    have := mul_nonneg (mul_nonneg h0 hb) (by norm_num : (0:ℚ) ≤ 1 / 100)
    simpa [correctionDiscountOf] using this
  · have h10 : min cp 10 ≤ 10 := min_le_right cp 10
    have := mul_le_mul_of_nonneg_right
      (mul_le_mul_of_nonneg_right h10 hb) (by norm_num : (0:ℚ) ≤ 1 / 100)
    calc correctionDiscountOf cp b = min cp 10 * b * (1 / 100) := rfl
      _ ≤ 10 * b * (1 / 100) := this
      _ = 10 * b / 100 := by ring
  · rw [correctionDiscountOf]
    norm_num
    ring
  · intro p s pd
    simp only [calcPackage, correctionDiscountOf]
    norm_num

/-- C4 witness: the amended statement evaluated at baseCost 1000,
correctionPercent 15 — the clamped discount is exactly 100 = 10% of
1000. -/
theorem correction_clamp_amended_witness :
    correctionDiscountOf 15 1000 = min 15 10 * 1000 / 100 ∧
    (0 ≤ (15:ℚ) → 0 ≤ correctionDiscountOf 15 1000 ∧
      correctionDiscountOf 15 1000 ≤ 10 * 1000 / 100) ∧
    correctionDiscountOf 15 (1000:ℚ) = 10 * 1000 / 100 ∧
    (∀ (p : CalcInputs) (s : CalculatorSettings) (pd : PackageConfig),
      (calcPackage 1000 { p with correctionPercent := 15 } s pd).totalSavings =
        (calcPackage 1000 { p with correctionPercent := 0 } s pd).totalSavings +
          correctionDiscountOf 15 1000) :=
  correction_clamp_amended 1000 15 (by norm_num)

/-- C5, counterexample: an unavailable package does NOT keep the
monthlyPayment it would have if available — the engine zeroes it
(`monthlyPayment: isAvailable ? monthlyPayment : 0`).  With baseCost
20000, two months of installments and no down payment, the same
configuration made available (minCost lowered to 0) reports 8000, but
the unavailable package reports 0. -/
theorem unavailable_zeroes_monthly_counterexample :
    (calcPackage 20000
      { downPayment := 0, installmentMonths := 2, usedCertificate := false,
        procedureCount := 10, freeZonesValue := 0, totalProcedures := 10,
        correctionPercent := 0 }
      { certificateDiscountAmount := 0, certificateMinCourseAmount := 0,
        bulkDiscountThreshold := 0, bulkDiscountPercentage := 0 }
      { discount := 1/5, dynamicDiscount := 0, minCost := 100000,
        minDownPaymentPercent := 0, minDownPayment := 0,
        requiresFullPayment := false, giftSessions := 0 }).isAvailable = false ∧
    (calcPackage 20000
      { downPayment := 0, installmentMonths := 2, usedCertificate := false,
        procedureCount := 10, freeZonesValue := 0, totalProcedures := 10,
        correctionPercent := 0 }
      { certificateDiscountAmount := 0, certificateMinCourseAmount := 0,
        bulkDiscountThreshold := 0, bulkDiscountPercentage := 0 }
      { discount := 1/5, dynamicDiscount := 0, minCost := 100000,
        minDownPaymentPercent := 0, minDownPayment := 0,
        requiresFullPayment := false, giftSessions := 0 }).monthlyPayment = 0 ∧
    (calcPackage 20000
      { downPayment := 0, installmentMonths := 2, usedCertificate := false,
        procedureCount := 10, freeZonesValue := 0, totalProcedures := 10,
        correctionPercent := 0 }
      { certificateDiscountAmount := 0, certificateMinCourseAmount := 0,
        bulkDiscountThreshold := 0, bulkDiscountPercentage := 0 }
      { discount := 1/5, dynamicDiscount := 0, minCost := 0,
        minDownPaymentPercent := 0, minDownPayment := 0,
        requiresFullPayment := false, giftSessions := 0 }).monthlyPayment = 8000 := by
  refine ⟨?_, ?_, ?_⟩ <;> norm_num [calcPackage, jsOr, correctionDiscountOf]

/-- C5, amended: isAvailable iff baseCost ≥ minCost; when unavailable
the reason carries the shortfall and the required minimum and
finalCost, totalSavings and appliedDiscounts are exactly the values the
package would have with any other minCost (in particular one making it
available) — but monthlyPayment is forced to 0 instead of the value it
would have if available. -/
theorem availability_amended (b mc₂ : ℚ) (p : CalcInputs)
    (s : CalculatorSettings) (pd : PackageConfig) :
    ((calcPackage b p s pd).isAvailable = true ↔ pd.minCost ≤ b) ∧
    ((calcPackage b p s pd).isAvailable = false →
      (calcPackage b p s pd).unavailableReason =
          some (pd.minCost - b, pd.minCost) ∧
      (calcPackage b p s pd).monthlyPayment = 0) ∧
    (calcPackage b p s pd).finalCost =
      (calcPackage b p s { pd with minCost := mc₂ }).finalCost ∧
    (calcPackage b p s pd).totalSavings =
      (calcPackage b p s { pd with minCost := mc₂ }).totalSavings ∧
    (calcPackage b p s pd).appliedDiscounts =
      (calcPackage b p s { pd with minCost := mc₂ }).appliedDiscounts := by
  refine ⟨by simp [calcPackage], fun hna => ⟨?_, ?_⟩, by simp [calcPackage],
    by simp [calcPackage], by simp [calcPackage]⟩
  · simp only [calcPackage, decide_eq_false_iff_not, not_le] at hna ⊢
    simp [hna, not_le.mpr hna]
  · simp only [calcPackage, decide_eq_false_iff_not, not_le] at hna ⊢
    simp [not_le.mpr hna]

/-- C5 witness: applying the amended statement at baseCost 20000 and
minCost 100000 (an unavailable package): the reason reports the
shortfall 80000 and the minimum 100000, and monthlyPayment is zeroed. -/
theorem availability_amended_witness :
    (calcPackage 20000
      { downPayment := 0, installmentMonths := 2, usedCertificate := false,
        procedureCount := 10, freeZonesValue := 0, totalProcedures := 10,
        correctionPercent := 0 }
      { certificateDiscountAmount := 0, certificateMinCourseAmount := 0,
        bulkDiscountThreshold := 0, bulkDiscountPercentage := 0 }
      { discount := 1/5, dynamicDiscount := 0, minCost := 100000,
        minDownPaymentPercent := 0, minDownPayment := 0,
        requiresFullPayment := false, giftSessions := 0 }).unavailableReason =
        some (100000 - 20000, 100000) ∧
    (calcPackage 20000
      { downPayment := 0, installmentMonths := 2, usedCertificate := false,
        procedureCount := 10, freeZonesValue := 0, totalProcedures := 10,
        correctionPercent := 0 }
      { certificateDiscountAmount := 0, certificateMinCourseAmount := 0,
        bulkDiscountThreshold := 0, bulkDiscountPercentage := 0 }
      { discount := 1/5, dynamicDiscount := 0, minCost := 100000,
        minDownPaymentPercent := 0, minDownPayment := 0,
        requiresFullPayment := false, giftSessions := 0 }).monthlyPayment = 0 := by
  have h := (availability_amended 20000 0
    { downPayment := 0, installmentMonths := 2, usedCertificate := false,
      procedureCount := 10, freeZonesValue := 0, totalProcedures := 10,
      correctionPercent := 0 }
    { certificateDiscountAmount := 0, certificateMinCourseAmount := 0,
      bulkDiscountThreshold := 0, bulkDiscountPercentage := 0 }
    { discount := 1/5, dynamicDiscount := 0, minCost := 100000,
      minDownPaymentPercent := 0, minDownPayment := 0,
      requiresFullPayment := false, giftSessions := 0 }).2.1
    (by norm_num [calcPackage, jsOr])
  exact h

/-- C6, confirmed: selecting an available package whose definition has
`requiresFullPayment = true` pins the session down payment to that
package's computed finalCost regardless of the previous down payment,
and the pricing engine reports monthlyPayment 0 for every package
configuration with `requiresFullPayment = true`. -/
theorem full_payment_pinning (t : String) (cres : CalculationResult)
    (rows : List ClientPackageRow) (m dp : ℚ)
    (pe : String × PackageData) (cfg : ClientPackageRow)
    (hrows : rows ≠ [])
    (hpe : cres.packages.find? (fun e => e.1 = t) = some pe)
    (hcfg : rows.find? (fun r => r.ptype = t) = some cfg)
    (hav : pe.2.isAvailable = true)
    (hrfp : cfg.requiresFullPayment = true) :
    adjustDownPaymentOnSelect (some t) (some cres) rows m dp = pe.2.finalCost ∧
    (∀ (b : ℚ) (p : CalcInputs) (s : CalculatorSettings) (pd : PackageConfig),
      pd.requiresFullPayment = true →
        (calcPackage b p s pd).monthlyPayment = 0) := by
  constructor
  · simp [adjustDownPaymentOnSelect, hrows, hpe, hcfg, hav, hrfp]
  · intro b p s pd h
    simp [calcPackage, h]

/-- C6 witness: a concrete available full-payment package with
finalCost 16000 and a prior down payment of 3000 gets pinned to 16000,
and a concrete full-payment engine run reports monthlyPayment 0. -/
theorem full_payment_pinning_witness :
    adjustDownPaymentOnSelect (some "vip")
      (some { baseCost := 20000,
              packages := [("vip",
                { isAvailable := true, unavailableReason := none,
                  finalCost := 16000, totalSavings := 4000,
                  monthlyPayment := 0, appliedDiscounts := [] })],
              totalProcedures := 10, freeZonesValue := 0 })
      [{ ptype := "vip", requiresFullPayment := true,
         minDownPaymentPercent := 1/2 }] 5000 3000 = 16000 ∧
    (∀ (b : ℚ) (p : CalcInputs) (s : CalculatorSettings) (pd : PackageConfig),
      pd.requiresFullPayment = true →
        (calcPackage b p s pd).monthlyPayment = 0) := by
  have h := full_payment_pinning "vip"
    { baseCost := 20000,
      packages := [("vip",
        { isAvailable := true, unavailableReason := none,
          finalCost := 16000, totalSavings := 4000,
          monthlyPayment := 0, appliedDiscounts := [] })],
      totalProcedures := 10, freeZonesValue := 0 }
    [{ ptype := "vip", requiresFullPayment := true,
       minDownPaymentPercent := 1/2 }] 5000 3000
    ("vip",
      { isAvailable := true, unavailableReason := none,
        finalCost := 16000, totalSavings := 4000,
        monthlyPayment := 0, appliedDiscounts := [] })
    { ptype := "vip", requiresFullPayment := true,
      minDownPaymentPercent := 1/2 }
    (by simp) (by simp [List.find?]) (by simp [List.find?]) rfl rfl
  exact h

/-- C8, confirmed: if the subscription-type search throws, or it finds
nothing and the external creation throws, the confirmation responds
with the catch-all error and persists no Sale row; and whenever a Sale
row is persisted, the response is a success carrying a resolved
subscription-type record. -/
theorem confirmation_failure_semantics (env : ConfirmEnv) (cp : CalcPayload) :
    (env.findOutcome = StepResult.thrown →
      confirmSubscription env cp = (ConfirmResponse.serverError, none)) ∧
    (env.findOutcome = StepResult.ok none →
      env.createOutcome = StepResult.thrown →
      confirmSubscription env cp = (ConfirmResponse.serverError, none)) ∧
    (∀ sale, (confirmSubscription env cp).2 = some sale →
      ∃ st, (confirmSubscription env cp).1 = ConfirmResponse.success st) := by
  refine ⟨fun hf => by simp [confirmSubscription, hf],
    fun hf hc => by simp [confirmSubscription, hf, hc], fun sale hs => ?_⟩
  rcases henv : env.findOutcome with found | _
  · rcases found with _ | st
    · rcases hcr : env.createOutcome with st₂ | _
      · exact ⟨st₂, by simp [confirmSubscription, henv, hcr]⟩
      · simp [confirmSubscription, henv, hcr] at hs
    · exact ⟨st, by simp [confirmSubscription, henv]⟩
  · simp [confirmSubscription, henv] at hs

/-- C8 witness: with a throwing search (and a throwing creation) on a
concrete payload, the route responds with the server error and persists
nothing. -/
theorem confirmation_failure_semantics_witness :
    confirmSubscription
      { findOutcome := StepResult.thrown, createOutcome := StepResult.thrown }
      { baseCost := 20000, finalCost := 16000, totalSavings := 4000,
        downPayment := 5000, installmentMonths := some 2,
        monthlyPayment := some 5500, appliedDiscounts := [] } =
      (ConfirmResponse.serverError, none) :=
  (confirmation_failure_semantics
    { findOutcome := StepResult.thrown, createOutcome := StepResult.thrown }
    { baseCost := 20000, finalCost := 16000, totalSavings := 4000,
      downPayment := 5000, installmentMonths := some 2,
      monthlyPayment := some 5500, appliedDiscounts := [] }).1 rfl

/-- C10, counterexample: the route does not persist installmentMonths
verbatim — `calculation.installmentMonths || null` turns a supplied 0
into null.  A confirmation whose payload carries installmentMonths 0
persists a Sale row whose installmentMonths column is null. -/
theorem passthrough_counterexample :
    (confirmSubscription
      { findOutcome := StepResult.ok none,
        createOutcome := StepResult.ok { cost := 16000, links := some [] } }
      { baseCost := 20000, finalCost := 16000, totalSavings := 4000,
        downPayment := 16000, installmentMonths := some 0,
        monthlyPayment := some 0, appliedDiscounts := [] }).2 =
      some (buildSaleRow
        { baseCost := 20000, finalCost := 16000, totalSavings := 4000,
          downPayment := 16000, installmentMonths := some 0,
          monthlyPayment := some 0, appliedDiscounts := [] }) ∧
    (buildSaleRow
      { baseCost := 20000, finalCost := 16000, totalSavings := 4000,
        downPayment := 16000, installmentMonths := some 0,
        monthlyPayment := some 0, appliedDiscounts := [] }).installmentMonths =
      none := by
  constructor
  · simp [confirmSubscription]
  · simp [buildSaleRow, jsOrNull]

/-- C10, amended: every Sale row the confirmation route persists copies
baseCost, finalCost, totalSavings, downPayment, monthlyPayment and
appliedDiscounts verbatim from the client-supplied calculation payload
— for every environment, so no server-side pricing enters the persisted
values — and installmentMonths is the supplied value routed through
`|| null`: kept verbatim when nonzero, stored as null when 0 or absent. -/
theorem passthrough_amended (env : ConfirmEnv) (cp : CalcPayload)
    (sale : SaleRow) (hs : (confirmSubscription env cp).2 = some sale) :
    sale.baseCost = cp.baseCost ∧
    sale.finalCost = cp.finalCost ∧
    sale.totalSavings = cp.totalSavings ∧
    sale.downPayment = cp.downPayment ∧
    sale.monthlyPayment = cp.monthlyPayment ∧
    sale.appliedDiscounts = cp.appliedDiscounts ∧
    sale.installmentMonths = jsOrNull cp.installmentMonths ∧
    (∀ q : ℚ, cp.installmentMonths = some q → q ≠ 0 →
      sale.installmentMonths = some q) := by
  have hsale : sale = buildSaleRow cp := by
    rcases henv : env.findOutcome with found | _
    · rcases found with _ | st
      · rcases hcr : env.createOutcome with st₂ | _
        · simp [confirmSubscription, henv, hcr] at hs
          exact hs.symm
        · simp [confirmSubscription, henv, hcr] at hs
      · simp [confirmSubscription, henv] at hs
        exact hs.symm
    · simp [confirmSubscription, henv] at hs
  subst hsale
  refine ⟨rfl, rfl, rfl, rfl, rfl, rfl, rfl, fun q hq hq0 => ?_⟩
  simp [buildSaleRow, jsOrNull, hq, hq0]

/-- C10 witness: a successful confirmation with a concrete payload
(installmentMonths 3) persists exactly the supplied pricing fields. -/
theorem passthrough_amended_witness :
    (buildSaleRow
      { baseCost := 20000, finalCost := 16000, totalSavings := 4000,
        downPayment := 5000, installmentMonths := some 3,
        monthlyPayment := some (11000/3),
        appliedDiscounts := [⟨DiscountType.package, 4000⟩] }).baseCost = 20000 ∧
    (buildSaleRow
      { baseCost := 20000, finalCost := 16000, totalSavings := 4000,
        downPayment := 5000, installmentMonths := some 3,
        monthlyPayment := some (11000/3),
        appliedDiscounts := [⟨DiscountType.package, 4000⟩] }).installmentMonths =
      some 3 := by
  have h := passthrough_amended
    { findOutcome := StepResult.ok (some { cost := 16000, links := some [] }),
      createOutcome := StepResult.thrown }
    { baseCost := 20000, finalCost := 16000, totalSavings := 4000,
      downPayment := 5000, installmentMonths := some 3,
      monthlyPayment := some (11000/3),
      appliedDiscounts := [⟨DiscountType.package, 4000⟩] }
    (buildSaleRow
      { baseCost := 20000, finalCost := 16000, totalSavings := 4000,
        downPayment := 5000, installmentMonths := some 3,
        monthlyPayment := some (11000/3),
        appliedDiscounts := [⟨DiscountType.package, 4000⟩] })
    (by simp [confirmSubscription])
  exact ⟨h.1, h.2.2.2.2.2.2.2 3 rfl (by norm_num)⟩

/-- Helper: a nonnegative amount guarded by its own positivity test. -/
lemma pos_entry_amount (x : ℚ) (hx : 0 ≤ x) : (if 0 < x then x else 0) = x := by
  split_ifs with h
  · rfl
  · linarith

/-- Helper: the bulk entry guard `qualifies && additionalDiscount > 0`
conserves the (nonnegative) additional discount amount. -/
lemma bulk_entry_amount (x : ℚ) (hx : 0 ≤ x) (q : Prop) [Decidable q] :
    (if q ∧ 0 < (if q then x else 0) then (if q then x else 0) else 0)
      = (if q then x else 0) := by
  by_cases hq : q
  · simp only [hq, if_true, true_and]
    exact pos_entry_amount x hx
  · simp [hq]

/-- Helper: the `sumNonGift` of an appliedDiscounts list of the engine's
shape, as a sum of guarded amounts (the gift entry never counts). -/
lemma sumNonGift_shape (x a c r g : ℚ) (q1 q2 q3 q4 : Prop)
    [Decidable q1] [Decidable q2] [Decidable q3] [Decidable q4] :
    sumNonGift ([⟨DiscountType.package, x⟩]
      ++ (if q1 then [⟨DiscountType.bulk, a⟩] else [])
      ++ (if q2 then [⟨DiscountType.certificate, c⟩] else [])
      ++ (if q3 then [⟨DiscountType.correction, r⟩] else [])
      ++ (if q4 then [⟨DiscountType.gift_sessions, g⟩] else []))
    = x + (if q1 then a else 0) + (if q2 then c else 0) + (if q3 then r else 0) := by
  unfold sumNonGift
  split_ifs <;> simp [List.filter] <;> ring

/-- C1, counterexample: the server-side pricing copy (also named
`calculatePackagePricing`, one of the two engines the claim quantifies
over) breaks both halves of the savings identity: it adds the free-zone
gift value into totalSavings.  At baseCost 20000, economy discount 0.2
and one free zone worth 100: finalCost = 16000, totalSavings = 4100, so
finalCost + totalSavings = 20100 ≠ 20000, and the appliedDiscounts sum
(4000, no gift_sessions entries present) differs from totalSavings. -/
theorem savings_identity_counterexample :
    (serverCalcPackage 20000
      { serviceQuantities := [1], downPayment := 0, installmentMonths := 0,
        usedCertificate := false, freeZones := [(100, 1)] }
      [{ ptype := "economy", discount := 1/5, minCost := 0,
         minDownPaymentPercent := 0, requiresFullPayment := false }]
      "economy").finalCost +
    (serverCalcPackage 20000
      { serviceQuantities := [1], downPayment := 0, installmentMonths := 0,
        usedCertificate := false, freeZones := [(100, 1)] }
      [{ ptype := "economy", discount := 1/5, minCost := 0,
         minDownPaymentPercent := 0, requiresFullPayment := false }]
      "economy").totalSavings ≠ 20000 ∧
    (serverCalcPackage 20000
      { serviceQuantities := [1], downPayment := 0, installmentMonths := 0,
        usedCertificate := false, freeZones := [(100, 1)] }
      [{ ptype := "economy", discount := 1/5, minCost := 0,
         minDownPaymentPercent := 0, requiresFullPayment := false }]
      "economy").totalSavings ≠
      sumNonGift (serverCalcPackage 20000
        { serviceQuantities := [1], downPayment := 0, installmentMonths := 0,
          usedCertificate := false, freeZones := [(100, 1)] }
        [{ ptype := "economy", discount := 1/5, minCost := 0,
           minDownPaymentPercent := 0, requiresFullPayment := false }]
        "economy").appliedDiscounts := by
  constructor
  · norm_num [serverCalcPackage, freeZonesValueOf, List.find?]
  · norm_num [serverCalcPackage, freeZonesValueOf, List.find?, sumNonGift,
      List.filter, List.foldr]

/-- C1, amended: the claimed savings identity holds for the client-side
engine.  For every package entry: finalCost + totalSavings = baseCost
(unconditionally), and totalSavings equals the sum of the
appliedDiscounts amounts excluding gift_sessions entries, provided
baseCost, the requested correctionPercent and the (defaulted) bulk
percentage and certificate amount are nonnegative — with a negative
correctionPercent (which only the engine, not the UI, admits) the
negative correction amount is counted in totalSavings but omitted from
appliedDiscounts.  The server-side copy violates the identity (see the
counterexample). -/
theorem savings_identity_amended (b : ℚ) (p : CalcInputs)
    (s : CalculatorSettings) (pd : PackageConfig)
    (hb : 0 ≤ b) (hcp : 0 ≤ p.correctionPercent)
    (hpct : 0 ≤ jsOr s.bulkDiscountPercentage (1/40))
    (hcert : 0 ≤ jsOr s.certificateDiscountAmount 3000) :
    (calcPackage b p s pd).finalCost + (calcPackage b p s pd).totalSavings = b ∧
    (calcPackage b p s pd).totalSavings =
      sumNonGift (calcPackage b p s pd).appliedDiscounts := by
  have hbulk : 0 ≤ b * jsOr s.bulkDiscountPercentage (1/40) := mul_nonneg hb hpct
  have hcorr : 0 ≤ correctionDiscountOf p.correctionPercent b := by
    have h0 : 0 ≤ min p.correctionPercent 10 := le_min hcp (by norm_num)
    exact mul_nonneg (mul_nonneg h0 hb) (by norm_num)
  have hcertC : 0 ≤ (if p.usedCertificate = true ∧
      jsOr s.certificateMinCourseAmount 25000 ≤ b
      then jsOr s.certificateDiscountAmount 3000 else 0) := by
    split_ifs
    · exact hcert
    · exact le_refl 0
  constructor
  · simp only [calcPackage]
    ring
  · simp only [calcPackage]
    rw [sumNonGift_shape, bulk_entry_amount _ hbulk, pos_entry_amount _ hcertC,
      pos_entry_amount _ hcorr]
    ring

/-- C1 witness: the amended identity at baseCost 20000, correction 5%,
certificate in use, default settings, economy package with a gift
session: finalCost + totalSavings = 20000 and totalSavings matches the
non-gift discount sum. -/
theorem savings_identity_amended_witness :
    (calcPackage 20000
      { downPayment := 5000, installmentMonths := 3, usedCertificate := true,
        procedureCount := 10, freeZonesValue := 0, totalProcedures := 10,
        correctionPercent := 5 }
      { certificateDiscountAmount := 0, certificateMinCourseAmount := 0,
        bulkDiscountThreshold := 0, bulkDiscountPercentage := 0 }
      { discount := 1/5, dynamicDiscount := 0, minCost := 10000,
        minDownPaymentPercent := 1/100, minDownPayment := 0,
        requiresFullPayment := false, giftSessions := 1 }).finalCost +
    (calcPackage 20000
      { downPayment := 5000, installmentMonths := 3, usedCertificate := true,
        procedureCount := 10, freeZonesValue := 0, totalProcedures := 10,
        correctionPercent := 5 }
      { certificateDiscountAmount := 0, certificateMinCourseAmount := 0,
        bulkDiscountThreshold := 0, bulkDiscountPercentage := 0 }
      { discount := 1/5, dynamicDiscount := 0, minCost := 10000,
        minDownPaymentPercent := 1/100, minDownPayment := 0,
        requiresFullPayment := false, giftSessions := 1 }).totalSavings = 20000 ∧
    (calcPackage 20000
      { downPayment := 5000, installmentMonths := 3, usedCertificate := true,
        procedureCount := 10, freeZonesValue := 0, totalProcedures := 10,
        correctionPercent := 5 }
      { certificateDiscountAmount := 0, certificateMinCourseAmount := 0,
        bulkDiscountThreshold := 0, bulkDiscountPercentage := 0 }
      { discount := 1/5, dynamicDiscount := 0, minCost := 10000,
        minDownPaymentPercent := 1/100, minDownPayment := 0,
        requiresFullPayment := false, giftSessions := 1 }).totalSavings =
      sumNonGift (calcPackage 20000
        { downPayment := 5000, installmentMonths := 3, usedCertificate := true,
          procedureCount := 10, freeZonesValue := 0, totalProcedures := 10,
          correctionPercent := 5 }
        { certificateDiscountAmount := 0, certificateMinCourseAmount := 0,
          bulkDiscountThreshold := 0, bulkDiscountPercentage := 0 }
        { discount := 1/5, dynamicDiscount := 0, minCost := 10000,
          minDownPaymentPercent := 1/100, minDownPayment := 0,
          requiresFullPayment := false, giftSessions := 1 }).appliedDiscounts :=
  savings_identity_amended 20000
    { downPayment := 5000, installmentMonths := 3, usedCertificate := true,
      procedureCount := 10, freeZonesValue := 0, totalProcedures := 10,
      correctionPercent := 5 }
    { certificateDiscountAmount := 0, certificateMinCourseAmount := 0,
      bulkDiscountThreshold := 0, bulkDiscountPercentage := 0 }
    { discount := 1/5, dynamicDiscount := 0, minCost := 10000,
      minDownPaymentPercent := 1/100, minDownPayment := 0,
      requiresFullPayment := false, giftSessions := 1 }
    (by norm_num) (by norm_num) (by norm_num [jsOr]) (by norm_num [jsOr])

/-- Helper: the bulk amount carried by a client-engine appliedDiscounts
list. -/
lemma discountAmountOf_bulk_shape (x a c r g : ℚ) (q1 q2 q3 q4 : Prop)
    [Decidable q1] [Decidable q2] [Decidable q3] [Decidable q4] :
    discountAmountOf ([⟨DiscountType.package, x⟩]
      ++ (if q1 then [⟨DiscountType.bulk, a⟩] else [])
      ++ (if q2 then [⟨DiscountType.certificate, c⟩] else [])
      ++ (if q3 then [⟨DiscountType.correction, r⟩] else [])
      ++ (if q4 then [⟨DiscountType.gift_sessions, g⟩] else []))
      DiscountType.bulk = if q1 then a else 0 := by
  unfold discountAmountOf
  split_ifs <;> simp [List.filter]

/-- Helper: the bulk amount carried by a server-copy appliedDiscounts
list. -/
lemma discountAmountOf_bulk_server_shape (x a c : ℚ) (q1 q2 : Prop)
    [Decidable q1] [Decidable q2] :
    discountAmountOf ([⟨DiscountType.package, x⟩]
      ++ (if q1 then [⟨DiscountType.bulk, a⟩] else [])
      ++ (if q2 then [⟨DiscountType.certificate, c⟩] else []))
      DiscountType.bulk = if q1 then a else 0 := by
  unfold discountAmountOf
  split_ifs <;> simp [List.filter]

/-- C7, counterexample: only the client engine gates the bulk discount
on maxSessionCount; the server copy gates it on the SUM of service
quantities (`totalProcedures`) with a hard-coded 2.5%.  For a selection
of one service with quantity 15 and sessionCount 10 (so maxSessionCount
= 10 ≤ 14) at baseCost 10000 with threshold 15: the client engine
yields bulk amount 0, the server copy yields 250 ≠ 0 — refuting the
claim for the server-side implementation. -/
theorem bulk_threshold_counterexample :
    discountAmountOf (calcPackage 10000
      { downPayment := 0, installmentMonths := 0, usedCertificate := false,
        procedureCount := 10, freeZonesValue := 0, totalProcedures := 15,
        correctionPercent := 0 }
      { certificateDiscountAmount := 0, certificateMinCourseAmount := 0,
        bulkDiscountThreshold := 15, bulkDiscountPercentage := 0 }
      { discount := 0, dynamicDiscount := 0, minCost := 0,
        minDownPaymentPercent := 0, minDownPayment := 0,
        requiresFullPayment := false, giftSessions := 0 }).appliedDiscounts
      DiscountType.bulk = 0 ∧
    discountAmountOf (serverCalcPackage 10000
      { serviceQuantities := [15], downPayment := 0, installmentMonths := 0,
        usedCertificate := false, freeZones := [] }
      [{ ptype := "standard", discount := 0, minCost := 0,
         minDownPaymentPercent := 0, requiresFullPayment := false }]
      "standard").appliedDiscounts DiscountType.bulk = 250 := by
  constructor
  · norm_num [calcPackage, jsOr, correctionDiscountOf, discountAmountOf,
      List.filter, List.foldr]
  · norm_num [serverCalcPackage, freeZonesValueOf, List.find?,
      discountAmountOf, List.filter, List.foldr]

/-- C7, amended: with bulkDiscountThreshold 15, the CLIENT engine's bulk
discount amount is 0 when maxSessionCount (= the procedureCount param,
the maximum sessionCount among selected services) is below 15 and
exactly baseCost × bulkDiscountPercentage from 15 up; the SERVER copy
instead awards baseCost × 0.025 exactly when the sum of service
quantities reaches 15, regardless of session counts. -/
theorem bulk_threshold_amended (b : ℚ) (p : CalcInputs)
    (s : CalculatorSettings) (pd : PackageConfig) (c : ServerCalc)
    (rows : List ServerPackageRow) (pkg : String)
    (hthr : jsOr s.bulkDiscountThreshold 15 = 15)
    (hb : 0 ≤ b) (hpct : 0 ≤ jsOr s.bulkDiscountPercentage (1/40)) :
    discountAmountOf (calcPackage b p s pd).appliedDiscounts
        DiscountType.bulk =
      (if 15 ≤ jsOr p.procedureCount 1
        then b * jsOr s.bulkDiscountPercentage (1/40) else 0) ∧
    discountAmountOf (serverCalcPackage b c rows pkg).appliedDiscounts
        DiscountType.bulk =
      (if 15 ≤ c.serviceQuantities.foldl (· + ·) 0 then b * (1/40) else 0) := by
  constructor
  · simp only [calcPackage]
    rw [discountAmountOf_bulk_shape,
      bulk_entry_amount _ (mul_nonneg hb hpct), hthr]
  · simp only [serverCalcPackage]
    rw [discountAmountOf_bulk_server_shape]
    by_cases hq : (15 : ℚ) ≤ c.serviceQuantities.foldl (· + ·) 0
    · simp [hq]
    · simp [hq]

/-- C7 witness: at the 14/15 boundary with default percentage 2.5% and
baseCost 10000: maxSessionCount 15 gives the client engine 250 and a
quantity sum of 15 gives the server copy 250. -/
theorem bulk_threshold_amended_witness :
    discountAmountOf (calcPackage 10000
      { downPayment := 0, installmentMonths := 0, usedCertificate := false,
        procedureCount := 15, freeZonesValue := 0, totalProcedures := 15,
        correctionPercent := 0 }
      { certificateDiscountAmount := 0, certificateMinCourseAmount := 0,
        bulkDiscountThreshold := 15, bulkDiscountPercentage := 0 }
      { discount := 0, dynamicDiscount := 0, minCost := 0,
        minDownPaymentPercent := 0, minDownPayment := 0,
        requiresFullPayment := false, giftSessions := 0 }).appliedDiscounts
      DiscountType.bulk =
      (if (15:ℚ) ≤ jsOr 15 1 then 10000 * jsOr 0 (1/40) else 0) ∧
    discountAmountOf (serverCalcPackage 10000
      { serviceQuantities := [15], downPayment := 0, installmentMonths := 0,
        usedCertificate := false, freeZones := [] }
      [{ ptype := "standard", discount := 0, minCost := 0,
         minDownPaymentPercent := 0, requiresFullPayment := false }]
      "standard").appliedDiscounts DiscountType.bulk =
      (if (15:ℚ) ≤ [(15:ℚ)].foldl (· + ·) 0 then 10000 * (1/40) else 0) :=
  bulk_threshold_amended 10000
    { downPayment := 0, installmentMonths := 0, usedCertificate := false,
      procedureCount := 15, freeZonesValue := 0, totalProcedures := 15,
      correctionPercent := 0 }
    { certificateDiscountAmount := 0, certificateMinCourseAmount := 0,
      bulkDiscountThreshold := 15, bulkDiscountPercentage := 0 }
    { discount := 0, dynamicDiscount := 0, minCost := 0,
      minDownPaymentPercent := 0, minDownPayment := 0,
      requiresFullPayment := false, giftSessions := 0 }
    { serviceQuantities := [15], downPayment := 0, installmentMonths := 0,
      usedCertificate := false, freeZones := [] }
    [{ ptype := "standard", discount := 0, minCost := 0,
       minDownPaymentPercent := 0, requiresFullPayment := false }]
    "standard" (by norm_num [jsOr]) (by norm_num) (by norm_num [jsOr])

/-- C9, confirmed (on the domain where the schedule generates
installments, `installmentMonths > 1`): the schedule opens with the
down payment dated today, and with N ≥ 2 installment months it contains
exactly N further entries, the i-th dated i months ahead, each for
`(finalCost - downPayment) / N` — exactly the client engine's
monthlyPayment for an available package without the full-payment
requirement.  (At N = 1 the engine defines a monthly payment but the
generator emits no installment entries, so the two are only both
defined from N = 2 up.) -/
theorem schedule_matches_monthly (b : ℚ) (p : CalcInputs)
    (s : CalculatorSettings) (pd : PackageConfig) (months : ℕ)
    (hm : 2 ≤ months)
    (hmm : p.installmentMonths = (months : ℚ))
    (hrfp : pd.requiresFullPayment = false)
    (hav : pd.minCost ≤ b) :
    (generatePaymentSchedule p.downPayment
      (calcPackage b p s pd).finalCost months).head? =
      some ⟨0, p.downPayment, PaymentDescription.downPayment⟩ ∧
    (generatePaymentSchedule p.downPayment
      (calcPackage b p s pd).finalCost months).length = months + 1 ∧
    ∀ i : ℕ, i < months →
      (generatePaymentSchedule p.downPayment
        (calcPackage b p s pd).finalCost months)[i+1]? =
        some ⟨i + 1, (calcPackage b p s pd).monthlyPayment,
          PaymentDescription.installment (i+1) months⟩ := by
  have h1m : 1 < months := hm
  refine ⟨rfl, ?_, ?_⟩
  · simp [generatePaymentSchedule, if_pos h1m]
  · intro i hi
    have hmp : (calcPackage b p s pd).monthlyPayment =
        ((calcPackage b p s pd).finalCost - p.downPayment) / (months : ℚ) := by
      simp only [calcPackage, hmm, hrfp]
      have hq : (0:ℚ) < (months:ℚ) := by exact_mod_cast (by omega : 0 < months)
      simp [decide_eq_true_eq, hav, hq]
    simp [generatePaymentSchedule, if_pos h1m, List.getElem?_map, hi, hmp]

/-- C9 witness: two installment months on baseCost 20000, economy 20%
discount, down payment 5000: the schedule has 3 entries and its first
installment entry carries exactly the engine's monthlyPayment. -/
theorem schedule_matches_monthly_witness :
    (generatePaymentSchedule 5000
      (calcPackage 20000
        { downPayment := 5000, installmentMonths := 2, usedCertificate := false,
          procedureCount := 10, freeZonesValue := 0, totalProcedures := 10,
          correctionPercent := 0 }
        { certificateDiscountAmount := 0, certificateMinCourseAmount := 0,
          bulkDiscountThreshold := 0, bulkDiscountPercentage := 0 }
        { discount := 1/5, dynamicDiscount := 0, minCost := 10000,
          minDownPaymentPercent := 1/100, minDownPayment := 0,
          requiresFullPayment := false, giftSessions := 0 }).finalCost 2).length
      = 3 ∧
    (generatePaymentSchedule 5000
      (calcPackage 20000
        { downPayment := 5000, installmentMonths := 2, usedCertificate := false,
          procedureCount := 10, freeZonesValue := 0, totalProcedures := 10,
          correctionPercent := 0 }
        { certificateDiscountAmount := 0, certificateMinCourseAmount := 0,
          bulkDiscountThreshold := 0, bulkDiscountPercentage := 0 }
        { discount := 1/5, dynamicDiscount := 0, minCost := 10000,
          minDownPaymentPercent := 1/100, minDownPayment := 0,
          requiresFullPayment := false, giftSessions := 0 }).finalCost 2)[1]? =
      some ⟨1, (calcPackage 20000
        { downPayment := 5000, installmentMonths := 2, usedCertificate := false,
          procedureCount := 10, freeZonesValue := 0, totalProcedures := 10,
          correctionPercent := 0 }
        { certificateDiscountAmount := 0, certificateMinCourseAmount := 0,
          bulkDiscountThreshold := 0, bulkDiscountPercentage := 0 }
        { discount := 1/5, dynamicDiscount := 0, minCost := 10000,
          minDownPaymentPercent := 1/100, minDownPayment := 0,
          requiresFullPayment := false, giftSessions := 0 }).monthlyPayment,
        PaymentDescription.installment 1 2⟩ := by
  have h := schedule_matches_monthly 20000
    { downPayment := 5000, installmentMonths := 2, usedCertificate := false,
      procedureCount := 10, freeZonesValue := 0, totalProcedures := 10,
      correctionPercent := 0 }
    { certificateDiscountAmount := 0, certificateMinCourseAmount := 0,
      bulkDiscountThreshold := 0, bulkDiscountPercentage := 0 }
    { discount := 1/5, dynamicDiscount := 0, minCost := 10000,
      minDownPaymentPercent := 1/100, minDownPayment := 0,
      requiresFullPayment := false, giftSessions := 0 }
    2 (le_refl 2) (by norm_num) rfl (by norm_num)
  exact ⟨h.2.1, h.2.2 0 (by norm_num)⟩

/-- The settings object whose fields are all absent (0): through
`field || default` the client engine then uses its hard-coded defaults
(3000 / 25000 / 15 / 0.025) — the same constants the server copy
hard-codes. -/
def defaultCalculatorSettings : CalculatorSettings :=
  { certificateDiscountAmount := 0, certificateMinCourseAmount := 0,
    bulkDiscountThreshold := 0, bulkDiscountPercentage := 0 }

/-- Helper: evaluating `x || d` at an absent (0) value gives the default. -/
lemma jsOr_zero (d : ℚ) : jsOr 0 d = d := by simp [jsOr]

/-- C2, counterexample: the two pricing implementations do NOT agree.
One scenario (baseCost 10000, economy package with discount 0.2, one
service of quantity 1 and sessionCount 10, no certificate, no free
zones, no installments, correction percent 10): the client engine
subtracts the 10% correction discount and reports finalCost 7000; the
server copy has no correction logic at all and reports 8000. -/
theorem engines_agree_counterexample :
    (calcPackage 10000
      { downPayment := 0, installmentMonths := 0, usedCertificate := false,
        procedureCount := 10, freeZonesValue := 0, totalProcedures := 10,
        correctionPercent := 10 }
      defaultCalculatorSettings
      { discount := 1/5, dynamicDiscount := 0, minCost := 0,
        minDownPaymentPercent := 0, minDownPayment := 0,
        requiresFullPayment := false, giftSessions := 0 }).finalCost ≠
    (serverCalcPackage 10000
      { serviceQuantities := [1], downPayment := 0, installmentMonths := 0,
        usedCertificate := false, freeZones := [] }
      [{ ptype := "economy", discount := 1/5, minCost := 0,
         minDownPaymentPercent := 0, requiresFullPayment := false }]
      "economy").finalCost := by
  have hclient : (calcPackage 10000
      { downPayment := 0, installmentMonths := 0, usedCertificate := false,
        procedureCount := 10, freeZonesValue := 0, totalProcedures := 10,
        correctionPercent := 10 }
      defaultCalculatorSettings
      { discount := 1/5, dynamicDiscount := 0, minCost := 0,
        minDownPaymentPercent := 0, minDownPayment := 0,
        requiresFullPayment := false, giftSessions := 0 }).finalCost = 7000 := by
    norm_num [calcPackage, defaultCalculatorSettings, jsOr, correctionDiscountOf]
  have hserver : (serverCalcPackage 10000
      { serviceQuantities := [1], downPayment := 0, installmentMonths := 0,
        usedCertificate := false, freeZones := [] }
      [{ ptype := "economy", discount := 1/5, minCost := 0,
         minDownPaymentPercent := 0, requiresFullPayment := false }]
      "economy").finalCost = 8000 := by
    norm_num [serverCalcPackage, freeZonesValueOf, List.find?]
  rw [hclient, hserver]
  norm_num

/-- C2, amended: the claimed client/server agreement holds only on a
restricted common domain: default calculator settings, a matching
package row, no dynamic discount, no gift sessions, zero correction
percent, no free zones, matching certificate/payment inputs, both bulk
gates below threshold (the client gates on maxSessionCount, the server
on the SUM of quantities — different quantities), the economy
down-payment special case off, and the vip name aligned with the
full-payment flag.  There the two engines produce the same finalCost,
totalSavings, monthlyPayment and appliedDiscounts; outside it they
diverge (see the counterexample). -/
theorem engines_agree_amended
    (b : ℚ) (p : CalcInputs) (c : ServerCalc) (pd : PackageConfig)
    (rows : List ServerPackageRow) (row : ServerPackageRow) (pkg : String)
    (hrow : rows.find? (fun r => r.ptype = pkg) = some row)
    (hd : row.discount = pd.discount) (hmc : row.minCost = pd.minCost)
    (hdyn : pd.dynamicDiscount = 0) (hgift : pd.giftSessions = 0)
    (hvip : pkg = "vip" ↔ pd.requiresFullPayment = true)
    (hcorr : p.correctionPercent = 0)
    (hzones : c.freeZones = [])
    (hcert : p.usedCertificate = c.usedCertificate)
    (hdown : p.downPayment = c.downPayment)
    (hmonths : p.installmentMonths = c.installmentMonths)
    (hbulkC : jsOr p.procedureCount 1 < 15)
    (hbulkS : c.serviceQuantities.foldl (· + ·) 0 < 15)
    (hecon : ¬(pkg = "economy" ∧ 10000 < c.downPayment)) :
    (calcPackage b p defaultCalculatorSettings pd).finalCost =
      (serverCalcPackage b c rows pkg).finalCost ∧
    (calcPackage b p defaultCalculatorSettings pd).totalSavings =
      (serverCalcPackage b c rows pkg).totalSavings ∧
    (calcPackage b p defaultCalculatorSettings pd).monthlyPayment =
      (serverCalcPackage b c rows pkg).monthlyPayment ∧
    (calcPackage b p defaultCalculatorSettings pd).appliedDiscounts =
      (serverCalcPackage b c rows pkg).appliedDiscounts := by
  have hcorr0 : correctionDiscountOf p.correctionPercent b = 0 := by
    simp [correctionDiscountOf, hcorr, min_eq_left (by norm_num : (0:ℚ) ≤ 10)]
  have hq : ¬((15:ℚ) ≤ jsOr p.procedureCount 1) := not_le.mpr hbulkC
  have hqs : ¬((15:ℚ) ≤ c.serviceQuantities.foldl (· + ·) 0) := not_le.mpr hbulkS
  refine ⟨?_, ?_, ?_, ?_⟩
  · simp only [calcPackage, serverCalcPackage, defaultCalculatorSettings,
      jsOr_zero, hrow, hdyn, hgift, hcorr0, hzones, hcert, hdown, hmonths,
      freeZonesValueOf, hecon, hd, if_neg hq, if_neg hqs, if_neg hecon]
    simp [hd]
    ring
  · simp only [calcPackage, serverCalcPackage, defaultCalculatorSettings,
      jsOr_zero, hrow, hdyn, hgift, hcorr0, hzones, hcert, hdown, hmonths,
      freeZonesValueOf, hecon, hd, if_neg hq, if_neg hqs, if_neg hecon]
    simp [hd]
  · simp only [calcPackage, serverCalcPackage, defaultCalculatorSettings,
      jsOr_zero, hrow, hdyn, hgift, hcorr0, hzones, hcert, hdown, hmonths,
      freeZonesValueOf, hecon, hd, if_neg hq, if_neg hqs, if_neg hecon]
    by_cases hav : pd.minCost ≤ b
    · have havs : ¬(b < row.minCost) := by rw [hmc]; exact not_lt.mpr hav
      by_cases hrfp : pd.requiresFullPayment = true
      · have hpkg : pkg = "vip" := hvip.mpr hrfp
        simp [hav, havs, hrfp, hpkg]
      · have hpkg : ¬(pkg = "vip") := fun h => hrfp (hvip.mp h)
        by_cases hm0 : 0 < c.installmentMonths
        · simp [hav, havs, hrfp, hm0, hpkg, hd]
          by_cases hcertQ : c.usedCertificate = true ∧ (25000:ℚ) ≤ b
          · simp [hcertQ, havs, hpkg]
            ring_nf
          · simp [hcertQ, havs, hpkg]
        · simp [hav, havs, hrfp, hm0, hpkg]
    · have havs : b < row.minCost := by rw [hmc]; exact not_le.mp hav
      simp [hav, havs]
  · simp only [calcPackage, serverCalcPackage, defaultCalculatorSettings,
      jsOr_zero, hrow, hdyn, hgift, hcorr0, hzones, hcert, hdown, hmonths,
      freeZonesValueOf, hecon, hd, if_neg hq, if_neg hqs, if_neg hecon]
    simp [hd]

/-- C2 witness: the agreement at baseCost 20000, standard package with
discount 0.2 / minCost 10000, down payment 5000, two installment
months: both implementations report the same finalCost. -/
theorem engines_agree_amended_witness :
    (calcPackage 20000
      { downPayment := 5000, installmentMonths := 2, usedCertificate := false,
        procedureCount := 10, freeZonesValue := 0, totalProcedures := 10,
        correctionPercent := 0 }
      defaultCalculatorSettings
      { discount := 1/5, dynamicDiscount := 0, minCost := 10000,
        minDownPaymentPercent := 1/100, minDownPayment := 0,
        requiresFullPayment := false, giftSessions := 0 }).finalCost =
    (serverCalcPackage 20000
      { serviceQuantities := [1], downPayment := 5000, installmentMonths := 2,
        usedCertificate := false, freeZones := [] }
      [{ ptype := "standard", discount := 1/5, minCost := 10000,
         minDownPaymentPercent := 1/100, requiresFullPayment := false }]
      "standard").finalCost :=
  (engines_agree_amended 20000
    { downPayment := 5000, installmentMonths := 2, usedCertificate := false,
      procedureCount := 10, freeZonesValue := 0, totalProcedures := 10,
      correctionPercent := 0 }
    { serviceQuantities := [1], downPayment := 5000, installmentMonths := 2,
      usedCertificate := false, freeZones := [] }
    { discount := 1/5, dynamicDiscount := 0, minCost := 10000,
      minDownPaymentPercent := 1/100, minDownPayment := 0,
      requiresFullPayment := false, giftSessions := 0 }
    [{ ptype := "standard", discount := 1/5, minCost := 10000,
       minDownPaymentPercent := 1/100, requiresFullPayment := false }]
    { ptype := "standard", discount := 1/5, minCost := 10000,
      minDownPaymentPercent := 1/100, requiresFullPayment := false }
    "standard" (by simp [List.find?]) rfl rfl rfl rfl (by simp) rfl rfl rfl rfl
    rfl (by norm_num [jsOr]) (by norm_num) (by simp)).1

/-- Helper: evaluating `x || d` at an absent (0) natural value gives the default. -/
lemma jsOrN_zero (d : ℕ) : jsOrN 0 d = d := by simp [jsOrN]

/-- Helper: the service key is order-independent — any permutation of
the request services yields the same (sorted-and-joined, i.e. multiset)
key. -/
lemma serviceKeyOf_perm (ss ss₂ : List ReqService) (h : ss₂.Perm ss) :
    serviceKeyOf ss₂ = serviceKeyOf ss := by
  unfold serviceKeyOf
  exact Multiset.coe_eq_coe.mpr (h.map _)

/-- Helper: for request services whose `serviceId` field is absent (the
confirmation payload carries `id`), the composition the route sends to
the external create call equals the search key of the same services. -/
lemma mkSubRecord_key (ss : List ReqService)
    (hids : ∀ x ∈ ss, x.serviceId = 0) :
    (ss.map (fun s => (jsOrN s.id s.serviceId, findKeyCount s)) :
      Multiset (ℕ × ℕ)) = serviceKeyOf ss := by
  unfold serviceKeyOf
  congr 1
  apply List.map_congr_left
  intro x hx
  have h0 : x.serviceId = 0 := hids x hx
  unfold findKeyId
  rw [h0]
  unfold jsOrN
  by_cases hid : x.id = 0
  · simp [hid]
  · simp [hid]

/-- Helper: the record created from a composition matches a search for
any equal-keyed composition at the same cost. -/
lemma matches_created (ss ss₂ : List ReqService) (cost : ℚ)
    (hids : ∀ x ∈ ss, x.serviceId = 0)
    (hkey : serviceKeyOf ss₂ = serviceKeyOf ss) :
    subRecordMatches (mkSubRecord ss cost) (serviceKeyOf ss₂) cost = true := by
  unfold subRecordMatches mkSubRecord
  simp [hkey, mkSubRecord_key ss hids]

/-- C3, confirmed: the duplicate search succeeds only on an exact match
of cost and composition.  If the first confirmation of a composition
finds no match it creates one new record; a second confirmation with
the same {serviceId: sessionCount} composition in any order and the
same cost resolves to exactly that record and creates nothing; and
against that record, changing one service's sessionCount by 1 (both
counts nonzero) or changing the cost by any amount makes the search
fail, so a fresh record is created rather than attaching to the near
match. -/
theorem duplicate_search_exact (store : List SubRecord)
    (ss ss₂ pre post : List ReqService) (s₀ s₁ : ReqService) (cost cost₂ : ℚ)
    (hids : ∀ x ∈ ss, x.serviceId = 0)
    (hfind : findSubscriptionType store ss cost = none)
    (hperm : ss₂.Perm ss)
    (hss : ss = pre ++ s₀ :: post)
    (hs₁id : s₁.id = s₀.id) (hs₁sid : s₁.serviceId = s₀.serviceId)
    (hsc0 : 1 ≤ s₀.sessionCount) (hsc1 : 1 ≤ s₁.sessionCount)
    (hby1 : s₁.sessionCount = s₀.sessionCount + 1 ∨
      s₀.sessionCount = s₁.sessionCount + 1)
    (hcost : cost₂ ≠ cost) :
    resolveSubscriptionType store ss cost =
      (mkSubRecord ss cost, store ++ [mkSubRecord ss cost], true) ∧
    resolveSubscriptionType (store ++ [mkSubRecord ss cost]) ss₂ cost =
      (mkSubRecord ss cost, store ++ [mkSubRecord ss cost], false) ∧
    (resolveSubscriptionType [mkSubRecord ss cost] (pre ++ s₁ :: post) cost).2.2
      = true ∧
    (resolveSubscriptionType [mkSubRecord ss cost] ss cost₂).2.2 = true := by
  have hkey2 : serviceKeyOf ss₂ = serviceKeyOf ss := serviceKeyOf_perm ss ss₂ hperm
  refine ⟨?_, ?_, ?_, ?_⟩
  · unfold resolveSubscriptionType
    rw [hfind]
  · have hfound : findSubscriptionType (store ++ [mkSubRecord ss cost]) ss₂ cost
        = some (mkSubRecord ss cost) := by
      unfold findSubscriptionType at hfind ⊢
      rw [List.find?_append]
      have h1 : store.find?
          (fun st => subRecordMatches st (serviceKeyOf ss₂) cost) = none := by
        rw [hkey2]; exact hfind
      rw [h1]
      simp [List.find?, matches_created ss ss₂ cost hids hkey2]
    unfold resolveSubscriptionType
    rw [hfound]
  · have hnomatch : subRecordMatches (mkSubRecord ss cost)
        (serviceKeyOf (pre ++ s₁ :: post)) cost = false := by
      unfold subRecordMatches mkSubRecord
      simp only
      rw [mkSubRecord_key ss hids]
      have hsc0e : findKeyCount s₀ = s₀.sessionCount := by
        unfold findKeyCount jsOrN
        rw [if_neg (by omega)]
      have hsc1e : findKeyCount s₁ = s₁.sessionCount := by
        unfold findKeyCount jsOrN
        rw [if_neg (by omega)]
      have hys : (findKeyId s₀, findKeyCount s₀) ≠
          (findKeyId s₁, findKeyCount s₁) := by
        intro h
        have h2 : findKeyCount s₀ = findKeyCount s₁ := congrArg Prod.snd h
        rw [hsc0e, hsc1e] at h2
        omega
      have hne : serviceKeyOf ss ≠ serviceKeyOf (pre ++ s₁ :: post) := by
        rw [hss]
        unfold serviceKeyOf
        simp only [List.map_append, List.map_cons]
        intro heq
        rw [← Multiset.coe_add, ← Multiset.coe_add, ← Multiset.cons_coe,
          ← Multiset.cons_coe] at heq
        have hcons := add_left_cancel heq
        exact hys ((Multiset.cons_inj_left _).mp hcons)
      simp [hne]
    have hfindnone : findSubscriptionType [mkSubRecord ss cost]
        (pre ++ s₁ :: post) cost = none := by
      unfold findSubscriptionType
      simp [List.find?, hnomatch]
    unfold resolveSubscriptionType
    rw [hfindnone]
  · have hnomatch : subRecordMatches (mkSubRecord ss cost)
        (serviceKeyOf ss) cost₂ = false := by
      unfold subRecordMatches mkSubRecord
      simp [hcost.symm]
    have hfindnone : findSubscriptionType [mkSubRecord ss cost] ss cost₂
        = none := by
      unfold findSubscriptionType
      simp [List.find?, hnomatch]
    unfold resolveSubscriptionType
    rw [hfindnone]

/-- C3 witness: two services (ids 101, 202 with session counts 5 and 8)
at cost 16000: the first confirmation creates the record, the second —
with the services listed in the opposite order — finds it and creates
nothing, while bumping the second service's sessionCount to 9, or
changing the cost to 15999, forces creation of a new record. -/
theorem duplicate_search_exact_witness :
    resolveSubscriptionType ([] : List SubRecord)
      [{ serviceId := 0, id := 101, sessionCount := 5, count := 0 },
       { serviceId := 0, id := 202, sessionCount := 8, count := 0 }] 16000 =
      (mkSubRecord
        [{ serviceId := 0, id := 101, sessionCount := 5, count := 0 },
         { serviceId := 0, id := 202, sessionCount := 8, count := 0 }] 16000,
       [mkSubRecord
        [{ serviceId := 0, id := 101, sessionCount := 5, count := 0 },
         { serviceId := 0, id := 202, sessionCount := 8, count := 0 }] 16000],
       true) ∧
    resolveSubscriptionType
      [mkSubRecord
        [{ serviceId := 0, id := 101, sessionCount := 5, count := 0 },
         { serviceId := 0, id := 202, sessionCount := 8, count := 0 }] 16000]
      [{ serviceId := 0, id := 202, sessionCount := 8, count := 0 },
       { serviceId := 0, id := 101, sessionCount := 5, count := 0 }] 16000 =
      (mkSubRecord
        [{ serviceId := 0, id := 101, sessionCount := 5, count := 0 },
         { serviceId := 0, id := 202, sessionCount := 8, count := 0 }] 16000,
       [mkSubRecord
        [{ serviceId := 0, id := 101, sessionCount := 5, count := 0 },
         { serviceId := 0, id := 202, sessionCount := 8, count := 0 }] 16000],
       false) ∧
    (resolveSubscriptionType
      [mkSubRecord
        [{ serviceId := 0, id := 101, sessionCount := 5, count := 0 },
         { serviceId := 0, id := 202, sessionCount := 8, count := 0 }] 16000]
      ([{ serviceId := 0, id := 101, sessionCount := 5, count := 0 }] ++
        { serviceId := 0, id := 202, sessionCount := 9, count := 0 } :: [])
      16000).2.2 = true ∧
    (resolveSubscriptionType
      [mkSubRecord
        [{ serviceId := 0, id := 101, sessionCount := 5, count := 0 },
         { serviceId := 0, id := 202, sessionCount := 8, count := 0 }] 16000]
      [{ serviceId := 0, id := 101, sessionCount := 5, count := 0 },
       { serviceId := 0, id := 202, sessionCount := 8, count := 0 }]
      15999).2.2 = true := by
  have h := duplicate_search_exact ([] : List SubRecord)
    [{ serviceId := 0, id := 101, sessionCount := 5, count := 0 },
     { serviceId := 0, id := 202, sessionCount := 8, count := 0 }]
    [{ serviceId := 0, id := 202, sessionCount := 8, count := 0 },
     { serviceId := 0, id := 101, sessionCount := 5, count := 0 }]
    [{ serviceId := 0, id := 101, sessionCount := 5, count := 0 }] []
    { serviceId := 0, id := 202, sessionCount := 8, count := 0 }
    { serviceId := 0, id := 202, sessionCount := 9, count := 0 }
    16000 15999
    (by decide) rfl (by decide) rfl rfl rfl (by decide) (by decide)
    (Or.inl rfl) (by norm_num)
  exact h
